import Mathlib

/-!
Verification of the SEVIRI native format reader
(`satpy/readers/seviri_l1b_native.py`) against its specification.

The reader decodes MSG SEVIRI Level 1.5 native files: it classifies the
covered window (full disk, rapid scan, region of interest), resolves image
boundaries, computes the geostationary-projection area extent, and
calibrates raw counts.  The definitions below are a shallow embedding of
the relevant functions; machine floats are modelled as rationals, raised
exceptions as `Except.error`, and the NaN no-data marker as `none`.
-/

namespace SeviriNative

/-- Modelled from the spec: column count of the full-disk standard-resolution
(VISIR) grid, imported by the source from `seviri_base` (the spec fixes it at
3712 columns). -/
def VISIR_NUM_COLUMNS : ℤ := 3712

/-- Modelled from the spec: line count of the full-disk standard-resolution
(VISIR) grid, imported by the source from `seviri_base` (3712 lines). -/
def VISIR_NUM_LINES : ℤ := 3712

/-- Modelled from the spec: column count of the full-disk high-resolution
(HRV) grid, sampled at three times the standard grid (3 * 3712 = 11136). -/
def HRV_NUM_COLUMNS : ℤ := 11136

/-- Modelled from the spec: line count of the full-disk high-resolution
(HRV) grid (11136 lines). -/
def HRV_NUM_LINES : ℤ := 11136

/-- Embeds `NativeMSGFileHandler._calculate_area_extent`: the four
projection-plane corner coordinates (lower-left column, lower-left line,
upper-right column, upper-right line), each pixel-unit formula multiplied
by its axis step. -/
def calculate_area_extent (center north east south west
    we_offset ns_offset column_step line_step : ℚ) : ℚ × ℚ × ℚ × ℚ :=
  ((center - east + 0.5 + we_offset) * column_step,
   (north - center + 0.5 + ns_offset) * line_step,
   (center - west - 0.5 + we_offset) * column_step,
   (south - center - 0.5 + ns_offset) * line_step)

/-- Embeds the `is_full_disk` derivation in
`NativeMSGFileHandler._read_header`: from the selected-rectangle bounds,
`ncolumns = west - east + 1` and `nrows = north - south + 1`; the flag is
false when either count is below the full-disk dimension, true otherwise. -/
def is_full_disk (north east south west : ℤ) : Bool :=
  let ncolumns := west - east + 1
  let nrows := north - south + 1
  if nrows < VISIR_NUM_LINES ∨ ncolumns < VISIR_NUM_COLUMNS then false else true

/-- Embeds `NativeMSGFileHandler.is_roi`: data is a region of interest when
it is not full disk and not standard rapid-scan coverage (reduced-scan flag
set with exactly 3712 columns, 1392 lines and north bound 3712). The inputs
are the metadata full-disk flag, the trailer reduced-scan flag, the metadata
line and column counts and the header north selected-rectangle bound. -/
def is_roi (full_disk rapid_scan : Bool) (nlines ncolumns north_bound : ℤ) : Bool :=
  let is_top3segments : Bool :=
    decide (ncolumns = VISIR_NUM_COLUMNS) && decide (nlines = 1392) &&
      decide (north_bound = VISIR_NUM_LINES)
  !full_disk && !(rapid_scan && is_top3segments)

/-- Embeds the earth-model dispatch in
`NativeMSGFileHandler.get_area_extent`: model 2 gives zero offsets, model 1
gives (-0.5, 0.5) for standard channels and (-1.5, 1.5) for HRV, any other
model raises `NotImplementedError`.  The result pairs (ns_offset, we_offset). -/
def earth_model_offsets (earth_model : ℤ) (channel : String) :
    Except String (ℚ × ℚ) :=
  if earth_model = 2 then Except.ok (0, 0)
  else if earth_model = 1 then
    if channel = "HRV" then Except.ok (-1.5, 1.5) else Except.ok (-0.5, 0.5)
  else Except.error ("Unrecognised Earth model: " ++ toString earth_model)

/-- Embeds the center-point selection in
`NativeMSGFileHandler.get_area_extent`: `(HRV_NUM_COLUMNS / 2) - 2` for the
HRV channel and `VISIR_NUM_COLUMNS / 2` otherwise. -/
def center_point (channel : String) : ℚ :=
  if channel = "HRV" then (HRV_NUM_COLUMNS : ℚ) / 2 - 2
  else (VISIR_NUM_COLUMNS : ℚ) / 2

/-- Embeds the calibration level carried by a dataset identifier
(`dataset_id.calibration`): one of the four values the reader handles. -/
inductive Calibration where
  | counts
  | radiance
  | reflectance
  | brightness_temperature
deriving DecidableEq

/-- Embeds the Level 1.5 header calibration coefficients consumed by
`NativeMSGFileHandler.calibrate`, indexed directly by channel name (the
source indexes the coefficient arrays by the position of the channel name
in the fixed 12-entry channel table, a bijection with the name). -/
structure Level15Header where
  calSlope : String → ℚ
  calOffset : String → ℚ
  gsicsCalCoeff : String → ℚ
  gsicsOffsetCount : String → ℚ

/-- Modelled from the spec: the visible-band channels, for which GSICS
coefficients do not exist (`VIS_CHANNELS` in `seviri_base`). -/
def VIS_CHANNELS : List String := ["VIS006", "VIS008", "IR_016", "HRV"]

/-- Embeds the Python string method `upper()` used on the calibration mode,
as a character-wise uppercase map. -/
def str_upper (s : String) : String := String.mk (s.data.map Char.toUpper)

/-- Embeds the masking step of `NativeMSGFileHandler.get_dataset`:
`xarr.where(data != 0)` maps raster samples with raw count 0 to NaN,
modelled as `none`; other counts are kept as rational values. -/
def mask_zero (data : List ℤ) : List (Option ℚ) :=
  data.map (fun (c : ℤ) => if c = 0 then none else some (c : ℚ))

/-- Modelled from the spec: `_convert_to_radiance` of `seviri_base`
(not under the provided sources) converts counts to radiance elementwise by
`radiance = counts * gain + offset`; the NaN marker propagates. -/
def convert_to_radiance (data : List (Option ℚ)) (gain offset : ℚ) :
    List (Option ℚ) :=
  data.map (Option.map (fun c => c * gain + offset))

/-- Modelled from the spec: `_vis_calibrate` of `seviri_base` (not under the
provided sources) converts radiance to reflectance elementwise; the scalar
formula is abstracted as the parameter `f`, and the NaN marker propagates. -/
def vis_calibrate (f : ℚ → ℚ) (data : List (Option ℚ)) : List (Option ℚ) :=
  data.map (Option.map f)

/-- Modelled from the spec: `_ir_calibrate` of `seviri_base` (not under the
provided sources) converts radiance to brightness temperature elementwise;
the scalar formula is abstracted as the parameter `g`, and the NaN marker
propagates. -/
def ir_calibrate (g : ℚ → ℚ) (data : List (Option ℚ)) : List (Option ℚ) :=
  data.map (Option.map g)

/-- Embeds `NativeMSGFileHandler.calibrate`: a counts request returns the
data unchanged; otherwise an unrecognized calibration mode (not GSICS or
NOMINAL after uppercasing) raises, the gain and offset are taken from the
nominal table unless GSICS mode is requested for a non-visible channel
(GSICS offset is pre-multiplied by the gain), the data is converted to
radiance, and reflectance or brightness temperature is derived when
requested.  `vis_f` and `ir_g` are the abstracted scalar conversions. -/
def calibrate (hdr : Level15Header) (calib_mode : String) (vis_f ir_g : ℚ → ℚ)
    (calibration : Calibration) (channel : String) (data : List (Option ℚ)) :
    Except String (List (Option ℚ)) :=
  match calibration with
  | Calibration.counts => Except.ok data
  | _ =>
    if str_upper calib_mode ≠ "GSICS" ∧ str_upper calib_mode ≠ "NOMINAL" then
      Except.error "Unknown Calibration mode : Please check"
    else
      let go : ℚ × ℚ :=
        if str_upper calib_mode ≠ "GSICS" ∨ channel ∈ VIS_CHANNELS then
          (hdr.calSlope channel, hdr.calOffset channel)
        else
          (hdr.gsicsCalCoeff channel,
           hdr.gsicsOffsetCount channel * hdr.gsicsCalCoeff channel)
      let res := convert_to_radiance data go.1 go.2
      match calibration with
      | Calibration.reflectance => Except.ok (vis_calibrate vis_f res)
      | Calibration.brightness_temperature => Except.ok (ir_calibrate ir_g res)
      | _ => Except.ok res

/-- Embeds the data path of `NativeMSGFileHandler.get_dataset` for one
channel: a channel absent from the available-channel list raises `KeyError`;
otherwise the decoded raw counts (`data`, produced by the bit unpacker) are
masked so count 0 becomes the NaN marker, and the masked raster is
calibrated. -/
def get_dataset (hdr : Level15Header) (calib_mode : String) (vis_f ir_g : ℚ → ℚ)
    (calibration : Calibration) (channel_list : List String) (channel : String)
    (data : List ℤ) : Except String (List (Option ℚ)) :=
  if channel ∉ channel_list then
    Except.error ("Channel " ++ channel ++ " not available in the file")
  else
    calibrate hdr calib_mode vis_f ir_g calibration channel (mask_zero data)

/-- Embeds the dictionary returned by `ImageBoundaries` resolution: the four
boundary fields, each a list of line or column numbers. -/
structure ImgBounds where
  south_bound : List ℤ
  north_bound : List ℤ
  east_bound : List ℤ
  west_bound : List ℤ
deriving DecidableEq

/-- Embeds `ImageBoundaries._check_for_valid_bounds`: the four boundary
lists must have a single common length (`set` of lengths has one element)
and the minimum length must be positive; otherwise `ValueError` is raised.
The Python `min` over the four-element length list is the nested binary
minimum. -/
def check_for_valid_bounds (img_bounds : ImgBounds) : Except String Unit :=
  let la := img_bounds.south_bound.length
  let lb := img_bounds.north_bound.length
  let lc := img_bounds.east_bound.length
  let ld := img_bounds.west_bound.length
  let same_lengths := ([la, lb, lc, ld].dedup.length = 1)
  let no_empty := 0 < min (min (min la lb) lc) ld
  if same_lengths ∧ no_empty then Except.ok ()
  else Except.error "Invalid image boundaries"

/-- Embeds the `ActualL15CoverageHRV` record of the trailer, read by
`ImageBoundaries._get_hrv_actual_img_bounds`. -/
structure HrvActualCoverage where
  lowerSouthLineActual : ℤ
  lowerNorthLineActual : ℤ
  lowerEastColumnActual : ℤ
  lowerWestColumnActual : ℤ
  upperSouthLineActual : ℤ
  upperNorthLineActual : ℤ
  upperEastColumnActual : ℤ
  upperWestColumnActual : ℤ

/-- Embeds the selected-rectangle fields of the secondary product header
used by `ImageBoundaries._get_selected_img_bounds`. -/
structure SelectedRectangle where
  southLineSelectedRectangle : ℤ
  eastColumnSelectedRectangle : ℤ

/-- Embeds `ImageBoundaries._convert_visir_bound_to_hrv`: rescales a
1-based standard-grid index to the high-resolution grid. -/
def convert_visir_bound_to_hrv (bound : ℤ) : ℤ := 3 * bound - 2

/-- Embeds `ImageBoundaries._get_hrv_actual_img_bounds`: boundaries of the
Lower window, and additionally of the Upper window when the acquisition is
full disk. -/
def get_hrv_actual_img_bounds (t : HrvActualCoverage) (full_disk : Bool) :
    ImgBounds :=
  if full_disk then
    { south_bound := [t.lowerSouthLineActual, t.upperSouthLineActual],
      north_bound := [t.lowerNorthLineActual, t.upperNorthLineActual],
      east_bound := [t.lowerEastColumnActual, t.upperEastColumnActual],
      west_bound := [t.lowerWestColumnActual, t.upperWestColumnActual] }
  else
    { south_bound := [t.lowerSouthLineActual],
      north_bound := [t.lowerNorthLineActual],
      east_bound := [t.lowerEastColumnActual],
      west_bound := [t.lowerWestColumnActual] }

/-- Embeds `ImageBoundaries._get_selected_img_bounds`: south and east come
from the header selected rectangle (rescaled to the high-resolution grid
for HRV), the image shape for the channel resolution gives north and west.
The shape arguments carry the metadata line and column counts of the two
grids. -/
def get_selected_img_bounds (sec : SelectedRectangle) (isHRV : Bool)
    (visir_nlines visir_ncols hrv_nlines hrv_ncols : ℤ) : ImgBounds :=
  let south_bound0 := sec.southLineSelectedRectangle
  let east_bound0 := sec.eastColumnSelectedRectangle
  let south_bound := if isHRV then convert_visir_bound_to_hrv south_bound0 else south_bound0
  let east_bound := if isHRV then convert_visir_bound_to_hrv east_bound0 else east_bound0
  let nlines := if isHRV then hrv_nlines else visir_nlines
  let ncolumns := if isHRV then hrv_ncols else visir_ncols
  let north_bound := south_bound + nlines - 1
  let west_bound := east_bound + ncolumns - 1
  { south_bound := [south_bound], north_bound := [north_bound],
    east_bound := [east_bound], west_bound := [west_bound] }

/-- Embeds the resolution step of `ImageBoundaries.get_img_bounds`: trailer
actual coverage for HRV outside the region-of-interest case, header
selected rectangle otherwise. -/
def resolve_img_bounds (sec : SelectedRectangle) (t : HrvActualCoverage)
    (full_disk : Bool) (visir_nlines visir_ncols hrv_nlines hrv_ncols : ℤ)
    (channel : String) (roi : Bool) : ImgBounds :=
  if channel = "HRV" ∧ ¬ roi = true then get_hrv_actual_img_bounds t full_disk
  else get_selected_img_bounds sec (channel = "HRV")
    visir_nlines visir_ncols hrv_nlines hrv_ncols

/-- Embeds `ImageBoundaries.get_img_bounds`: resolve the boundaries, check
the invariant, and return the boundaries unchanged. -/
def get_img_bounds (sec : SelectedRectangle) (t : HrvActualCoverage)
    (full_disk : Bool) (visir_nlines visir_ncols hrv_nlines hrv_ncols : ℤ)
    (channel : String) (roi : Bool) : Except String ImgBounds :=
  let img_bounds := resolve_img_bounds sec t full_disk
    visir_nlines visir_ncols hrv_nlines hrv_ncols channel roi
  match check_for_valid_bounds img_bounds with
  | Except.error e => Except.error e
  | Except.ok _ => Except.ok img_bounds

/-- Concrete calibration header used to instantiate theorems with
hypotheses at a specific input. -/
def hdr0 : Level15Header :=
  { calSlope := fun _ => 1, calOffset := fun _ => 0,
    gsicsCalCoeff := fun _ => 2, gsicsOffsetCount := fun _ => 3 }

/-- Concrete selected rectangle used to instantiate theorems with
hypotheses at a specific input. -/
def sec0 : SelectedRectangle :=
  { southLineSelectedRectangle := 1, eastColumnSelectedRectangle := 1 }

/-- Concrete trailer coverage record used to instantiate theorems with
hypotheses at a specific input. -/
def t0 : HrvActualCoverage :=
  { lowerSouthLineActual := 1, lowerNorthLineActual := 8128,
    lowerEastColumnActual := 2733, lowerWestColumnActual := 8300,
    upperSouthLineActual := 8129, upperNorthLineActual := 11136,
    upperEastColumnActual := 1, upperWestColumnActual := 5568 }

theorem dedup_four_length_one (a b c d : ℕ) :
    [a, b, c, d].dedup.length = 1 ↔ (a = b ∧ b = c ∧ c = d) := by
  constructor
  · intro h
    obtain ⟨x, hx⟩ := List.length_eq_one.mp h
    have ha : a ∈ [a, b, c, d].dedup := List.mem_dedup.mpr (by simp)
    have hb : b ∈ [a, b, c, d].dedup := List.mem_dedup.mpr (by simp)
    have hc : c ∈ [a, b, c, d].dedup := List.mem_dedup.mpr (by simp)
    have hd : d ∈ [a, b, c, d].dedup := List.mem_dedup.mpr (by simp)
    rw [hx] at ha hb hc hd
    simp only [List.mem_singleton] at ha hb hc hd
    subst ha hb hc hd
    exact ⟨rfl, rfl, rfl⟩
  · rintro ⟨rfl, rfl, rfl⟩
    rw [List.dedup_cons_of_mem (by simp), List.dedup_cons_of_mem (by simp),
      List.dedup_cons_of_mem (by simp)]
    simp

/-- C1: for every resolved boundary tuple, channel offsets and positive
column and line steps, `calculate_area_extent` returns exactly the four
pixel-unit corner formulas of the spec, each multiplied by its axis step. -/
theorem calculate_area_extent_spec
    (center north east south west we_offset ns_offset column_step line_step : ℚ)
    (hcol : 0 < column_step) (hline : 0 < line_step) :
    calculate_area_extent center north east south west
        we_offset ns_offset column_step line_step =
      ((center - east + 0.5 + we_offset) * column_step,
       (north - center + 0.5 + ns_offset) * line_step,
       (center - west - 0.5 + we_offset) * column_step,
       (south - center - 0.5 + ns_offset) * line_step) := rfl

/-- Witness for C1: the theorem applied to the full-disk VISIR boundary
with a 3 km step. -/
theorem calculate_area_extent_spec_witness :
    (0 : ℚ) < 3000 ∧ (0 : ℚ) < 3000 ∧
    calculate_area_extent 1856 3712 1 1 3712 0 0 3000 3000 =
      (((1856 : ℚ) - 1 + 0.5 + 0) * 3000, ((3712 : ℚ) - 1856 + 0.5 + 0) * 3000,
       ((1856 : ℚ) - 3712 - 0.5 + 0) * 3000, ((1 : ℚ) - 1856 - 0.5 + 0) * 3000) :=
  ⟨by norm_num, by norm_num,
    calculate_area_extent_spec 1856 3712 1 1 3712 0 0 3000 3000
      (by norm_num) (by norm_num)⟩

/-- C2: for every header selected rectangle, `is_full_disk` is true exactly
when both `nrows = north - south + 1` and `ncolumns = west - east + 1` reach
the full-disk thresholds 3712; values exactly at both thresholds yield true
and decreasing either count by one yields false. -/
theorem is_full_disk_spec :
    (∀ north east south west : ℤ,
      is_full_disk north east south west = true ↔
        (3712 ≤ north - south + 1 ∧ 3712 ≤ west - east + 1)) ∧
    (∀ north east south west : ℤ,
      north - south + 1 = 3712 → west - east + 1 = 3712 →
        is_full_disk north east south west = true) ∧
    (∀ north east south west : ℤ,
      north - south + 1 = 3711 → 3712 ≤ west - east + 1 →
        is_full_disk north east south west = false) ∧
    (∀ north east south west : ℤ,
      3712 ≤ north - south + 1 → west - east + 1 = 3711 →
        is_full_disk north east south west = false) := by
  refine ⟨?_, ?_, ?_, ?_⟩ <;>
    (intro north east south west
     simp only [is_full_disk, VISIR_NUM_LINES, VISIR_NUM_COLUMNS]) <;>
    (try intro h1 h2) <;> split <;> simp_all <;> omega

/-- Witness for C2: the threshold rectangle is full disk and one line less
is not. -/
theorem is_full_disk_spec_witness :
    is_full_disk 3712 1 1 3712 = true ∧ is_full_disk 3711 1 1 3712 = false :=
  ⟨is_full_disk_spec.2.1 3712 1 1 3712 (by norm_num) (by norm_num),
   is_full_disk_spec.2.2.1 3711 1 1 3712 (by norm_num) (by norm_num)⟩

/-- C4: in area-extent computation, earth model 2 gives zero offsets, earth
model 1 gives ns = -0.5 and we = 0.5 for standard channels and ns = -1.5
and we = 1.5 for HRV, and any other earth model is a hard error. -/
theorem earth_model_offsets_spec :
    (∀ channel : String, earth_model_offsets 2 channel = Except.ok (0, 0)) ∧
    (∀ channel : String, channel ≠ "HRV" →
      earth_model_offsets 1 channel = Except.ok (-0.5, 0.5)) ∧
    (earth_model_offsets 1 "HRV" = Except.ok (-1.5, 1.5)) ∧
    (∀ (m : ℤ) (channel : String), m ≠ 1 → m ≠ 2 →
      earth_model_offsets m channel =
        Except.error ("Unrecognised Earth model: " ++ toString m)) := by
  refine ⟨fun channel => rfl, ?_, rfl, ?_⟩
  · intro channel h
    simp [earth_model_offsets, h]
  · intro m channel h1 h2
    simp [earth_model_offsets, h1, h2]

/-- Witness for C4: a standard channel under earth model 1, and the hard
error for earth model 3. -/
theorem earth_model_offsets_spec_witness :
    earth_model_offsets 1 "VIS006" = Except.ok (-0.5, 0.5) ∧
    earth_model_offsets 3 "VIS006" =
      Except.error ("Unrecognised Earth model: " ++ toString (3 : ℤ)) :=
  ⟨earth_model_offsets_spec.2.1 "VIS006" (by decide),
   earth_model_offsets_spec.2.2.2 3 "VIS006" (by decide) (by decide)⟩

/-- C9: for the HRV channel in the selected-rectangle (region of interest)
case, the south and east bounds are the header values rescaled by
`hrv = 3 * visir - 2`, and north and west are obtained by adding the HRV
line and column counts minus one. -/
theorem hrv_selected_bounds_spec :
    (∀ (sec : SelectedRectangle) (visir_nlines visir_ncols hrv_nlines hrv_ncols : ℤ),
      get_selected_img_bounds sec true visir_nlines visir_ncols hrv_nlines hrv_ncols =
        { south_bound := [3 * sec.southLineSelectedRectangle - 2],
          north_bound := [3 * sec.southLineSelectedRectangle - 2 + hrv_nlines - 1],
          east_bound := [3 * sec.eastColumnSelectedRectangle - 2],
          west_bound := [3 * sec.eastColumnSelectedRectangle - 2 + hrv_ncols - 1] }) ∧
    (∀ bound : ℤ, convert_visir_bound_to_hrv bound = 3 * bound - 2) :=
  ⟨fun sec visir_nlines visir_ncols hrv_nlines hrv_ncols => rfl, fun bound => rfl⟩

/-- C10: the center-pixel coordinate is half the full-disk column count
(1856) for standard channels but half the HRV full-disk column count minus
two (5566) for the HRV channel, independently of file and boundary. -/
theorem center_point_spec :
    center_point "HRV" = 5566 ∧
    center_point "HRV" = (11136 : ℚ) / 2 - 2 ∧
    (∀ channel : String, channel ≠ "HRV" →
      center_point channel = 1856 ∧ center_point channel = (3712 : ℚ) / 2) := by
  refine ⟨?_, ?_, ?_⟩
  · simp [center_point, HRV_NUM_COLUMNS]
    norm_num
  · simp [center_point, HRV_NUM_COLUMNS]
  · intro channel h
    simp [center_point, h, VISIR_NUM_COLUMNS]
    norm_num

/-- Witness for C10: the standard-channel center point at a concrete
channel. -/
theorem center_point_spec_witness :
    center_point "VIS006" = 1856 :=
  (center_point_spec.2.2 "VIS006" (by decide)).1

/-- C3: `is_roi` holds exactly when the data is not full disk and not
standard rapid-scan coverage (reduced-scan flag with 3712 columns, 1392
lines and north bound 3712); at the standard rapid-scan values the result
is not ROI, and with the data not full disk, negating any single one of the
four conditions makes it ROI. -/
theorem is_roi_spec :
    (∀ (full_disk rapid_scan : Bool) (nlines ncolumns north_bound : ℤ),
      is_roi full_disk rapid_scan nlines ncolumns north_bound = true ↔
        (full_disk = false ∧
          ¬(rapid_scan = true ∧ ncolumns = 3712 ∧ nlines = 1392 ∧
            north_bound = 3712))) ∧
    (∀ full_disk : Bool, is_roi full_disk true 1392 3712 3712 = false) ∧
    (is_roi false false 1392 3712 3712 = true) ∧
    (∀ ncolumns : ℤ, ncolumns ≠ 3712 → is_roi false true 1392 ncolumns 3712 = true) ∧
    (∀ nlines : ℤ, nlines ≠ 1392 → is_roi false true nlines 3712 3712 = true) ∧
    (∀ north_bound : ℤ, north_bound ≠ 3712 →
      is_roi false true 1392 3712 north_bound = true) := by
  refine ⟨?_, ?_, ?_, ?_, ?_, ?_⟩
  · intro full_disk rapid_scan nlines ncolumns north_bound
    cases full_disk <;> cases rapid_scan <;>
      simp only [is_roi, VISIR_NUM_COLUMNS, VISIR_NUM_LINES, Bool.and_eq_true,
        Bool.not_eq_true', Bool.and_eq_false_iff, decide_eq_true_eq,
        decide_eq_false_iff_not, Bool.not_true, Bool.not_false, Bool.false_and,
        Bool.true_and, Bool.and_false, Bool.and_true] <;>
      tauto
  · intro full_disk
    cases full_disk <;> decide
  · decide
  · intro ncolumns h
    simp [is_roi, VISIR_NUM_COLUMNS, VISIR_NUM_LINES, h]
  · intro nlines h
    simp [is_roi, VISIR_NUM_COLUMNS, VISIR_NUM_LINES, h]
  · intro north_bound h
    simp [is_roi, VISIR_NUM_COLUMNS, VISIR_NUM_LINES, h]

/-- Witness for C3: one changed column count yields ROI, and the full-disk
flag alone suppresses ROI. -/
theorem is_roi_spec_witness :
    is_roi false true 1392 3711 3712 = true ∧
    is_roi true true 1392 3712 3712 = false :=
  ⟨is_roi_spec.2.2.2.1 3711 (by decide), is_roi_spec.2.1 true⟩

/-- C7: the boundary check accepts exactly when the four boundary lists
have equal non-zero lengths and aborts with `Invalid image boundaries`
otherwise; when the resolved boundaries pass the check,
`get_img_bounds` returns them unchanged, and when they fail it aborts. -/
theorem img_bounds_invariant :
    (∀ b : ImgBounds,
      check_for_valid_bounds b = Except.ok () ↔
        (b.south_bound.length = b.north_bound.length ∧
         b.north_bound.length = b.east_bound.length ∧
         b.east_bound.length = b.west_bound.length ∧
         b.south_bound ≠ [])) ∧
    (∀ b : ImgBounds,
      check_for_valid_bounds b ≠ Except.ok () →
        check_for_valid_bounds b = Except.error "Invalid image boundaries") ∧
    (∀ (sec : SelectedRectangle) (t : HrvActualCoverage) (full_disk : Bool)
       (vl vc hl hc : ℤ) (channel : String) (roi : Bool),
      check_for_valid_bounds
          (resolve_img_bounds sec t full_disk vl vc hl hc channel roi) =
        Except.ok () →
      get_img_bounds sec t full_disk vl vc hl hc channel roi =
        Except.ok (resolve_img_bounds sec t full_disk vl vc hl hc channel roi)) ∧
    (∀ (sec : SelectedRectangle) (t : HrvActualCoverage) (full_disk : Bool)
       (vl vc hl hc : ℤ) (channel : String) (roi : Bool),
      check_for_valid_bounds
          (resolve_img_bounds sec t full_disk vl vc hl hc channel roi) ≠
        Except.ok () →
      get_img_bounds sec t full_disk vl vc hl hc channel roi =
        Except.error "Invalid image boundaries") := by
  have hcheck : ∀ b : ImgBounds,
      check_for_valid_bounds b = Except.ok () ↔
        (b.south_bound.length = b.north_bound.length ∧
         b.north_bound.length = b.east_bound.length ∧
         b.east_bound.length = b.west_bound.length ∧
         b.south_bound ≠ []) := by
    intro b
    simp only [check_for_valid_bounds]
    split
    case isTrue h =>
      obtain ⟨hsame, hmin⟩ := h
      rw [dedup_four_length_one] at hsame
      obtain ⟨h1, h2, h3⟩ := hsame
      simp only [lt_min_iff] at hmin
      constructor
      · intro _
        refine ⟨h1, h2, h3, ?_⟩
        rw [← List.length_pos]
        exact hmin.1.1.1
      · intro _
        rfl
    case isFalse h =>
      constructor
      · intro hcontra
        exact Except.noConfusion hcontra
      · rintro ⟨h1, h2, h3, h4⟩
        exfalso
        apply h
        refine ⟨(dedup_four_length_one _ _ _ _).mpr ⟨h1, h2, h3⟩, ?_⟩
        have hpos := List.length_pos.mpr h4
        simp only [lt_min_iff]
        omega
  have herr : ∀ b : ImgBounds,
      check_for_valid_bounds b ≠ Except.ok () →
        check_for_valid_bounds b = Except.error "Invalid image boundaries" := by
    intro b h
    by_cases hc : ([b.south_bound.length, b.north_bound.length,
        b.east_bound.length, b.west_bound.length].dedup.length = 1) ∧
        0 < min (min (min b.south_bound.length b.north_bound.length)
          b.east_bound.length) b.west_bound.length
    · exact absurd (by simp only [check_for_valid_bounds]; rw [if_pos hc]) h
    · simp only [check_for_valid_bounds]
      rw [if_neg hc]
  refine ⟨hcheck, herr, ?_, ?_⟩
  · intro sec t full_disk vl vc hl hc channel roi h
    simp only [get_img_bounds]
    rw [h]
  · intro sec t full_disk vl vc hl hc channel roi h
    simp only [get_img_bounds]
    rw [herr _ h]

/-- Witness for C7: valid resolved boundaries for a standard channel are
returned unchanged. -/
theorem img_bounds_invariant_witness :
    check_for_valid_bounds
        (resolve_img_bounds sec0 t0 false 3712 3712 11136 11136 "VIS006" false) =
      Except.ok () ∧
    get_img_bounds sec0 t0 false 3712 3712 11136 11136 "VIS006" false =
      Except.ok (resolve_img_bounds sec0 t0 false 3712 3712 11136 11136
        "VIS006" false) :=
  have h : check_for_valid_bounds
      (resolve_img_bounds sec0 t0 false 3712 3712 11136 11136 "VIS006" false) =
        Except.ok () := rfl
  ⟨h, img_bounds_invariant.2.2.1 sec0 t0 false 3712 3712 11136 11136
    "VIS006" false h⟩

/-- C5: for every channel and every calibration mode (counts included),
raster samples with raw decoded count 0 come out of `get_dataset` as the
no-data marker: the masking precedes every radiance conversion, and the
marker propagates through them. -/
theorem zero_counts_excluded
    (hdr : Level15Header) (calib_mode : String) (vis_f ir_g : ℚ → ℚ)
    (calibration : Calibration) (channel_list : List String) (channel : String)
    (data : List ℤ) (out : List (Option ℚ)) (i : ℕ)
    (hok : get_dataset hdr calib_mode vis_f ir_g calibration channel_list
      channel data = Except.ok out)
    (hzero : data[i]? = some 0) : out[i]? = some none := by
  simp only [get_dataset] at hok
  split at hok
  · exact Except.noConfusion hok
  · cases calibration <;> simp only [calibrate] at hok
    case counts =>
      simp only [Except.ok.injEq] at hok
      subst hok
      simp [mask_zero, List.getElem?_map, hzero]
    case radiance =>
      split at hok
      · exact Except.noConfusion hok
      · simp only [Except.ok.injEq] at hok
        subst hok
        simp [convert_to_radiance, mask_zero, List.getElem?_map, hzero]
    case reflectance =>
      split at hok
      · exact Except.noConfusion hok
      · simp only [Except.ok.injEq] at hok
        subst hok
        simp [vis_calibrate, convert_to_radiance, mask_zero,
          List.getElem?_map, hzero]
    case brightness_temperature =>
      split at hok
      · exact Except.noConfusion hok
      · simp only [Except.ok.injEq] at hok
        subst hok
        simp [ir_calibrate, convert_to_radiance, mask_zero,
          List.getElem?_map, hzero]

/-- Witness for C5: a zero count through nominal radiance calibration. -/
theorem zero_counts_excluded_witness :
    get_dataset hdr0 "nominal" id id Calibration.radiance ["VIS006"] "VIS006"
        [0] = Except.ok [none] ∧
    ([(0 : ℤ)])[0]? = some 0 ∧
    ([(none : Option ℚ)])[0]? = some none :=
  have h : get_dataset hdr0 "nominal" id id Calibration.radiance ["VIS006"]
      "VIS006" [0] = Except.ok [none] := rfl
  ⟨h, rfl, zero_counts_excluded hdr0 "nominal" id id Calibration.radiance
    ["VIS006"] "VIS006" [0] [none] 0 h rfl⟩

/-- C6: for every visible-band channel and every raster, GSICS mode
calibration equals nominal mode calibration: the GSICS request falls back
to the nominal coefficients. -/
theorem gsics_vis_fallback
    (hdr : Level15Header) (vis_f ir_g : ℚ → ℚ) (calibration : Calibration)
    (channel : String) (data : List (Option ℚ))
    (hvis : channel ∈ VIS_CHANNELS) :
    calibrate hdr "gsics" vis_f ir_g calibration channel data =
      calibrate hdr "nominal" vis_f ir_g calibration channel data := by
  have hg : str_upper "gsics" = "GSICS" := by decide
  have hn : str_upper "nominal" = "NOMINAL" := by decide
  cases calibration <;> simp [calibrate, hg, hn, hvis]

/-- Witness for C6: GSICS and nominal calibration agree on a VIS006
radiance request. -/
theorem gsics_vis_fallback_witness :
    "VIS006" ∈ VIS_CHANNELS ∧
    calibrate hdr0 "gsics" id id Calibration.radiance "VIS006" [some 1] =
      calibrate hdr0 "nominal" id id Calibration.radiance "VIS006" [some 1] :=
  ⟨by decide, gsics_vis_fallback hdr0 id id Calibration.radiance "VIS006"
    [some 1] (by decide)⟩

/-- Counterexample for C8: a counts request with the unrecognized mode
string `foo` (neither gsics nor nominal case-insensitively) does not abort;
it returns the data unchanged, so not every requested calibration checks
the mode. -/
theorem calib_counts_ignores_mode :
    str_upper "foo" ≠ "GSICS" ∧ str_upper "foo" ≠ "NOMINAL" ∧
    calibrate hdr0 "foo" id id Calibration.counts "VIS006" [some 1] =
      Except.ok [some 1] :=
  ⟨by decide, by decide, rfl⟩

/-- C8 (amended): for every requested calibration other than counts, a
calibration-mode string that is neither nominal nor gsics after uppercasing
makes `calibrate` abort with the hard error
`Unknown Calibration mode : Please check`; a counts request returns the
data without consulting the mode. -/
theorem unknown_calib_mode_error
    (hdr : Level15Header) (calib_mode : String) (vis_f ir_g : ℚ → ℚ)
    (calibration : Calibration) (channel : String) (data : List (Option ℚ))
    (hcal : calibration ≠ Calibration.counts)
    (hg : str_upper calib_mode ≠ "GSICS")
    (hn : str_upper calib_mode ≠ "NOMINAL") :
    calibrate hdr calib_mode vis_f ir_g calibration channel data =
      Except.error "Unknown Calibration mode : Please check" := by
  cases calibration
  case counts => exact absurd rfl hcal
  all_goals
    simp only [calibrate]
    rw [if_pos ⟨hg, hn⟩]

/-- Witness for C8: a radiance request with mode `foo` aborts. -/
theorem unknown_calib_mode_error_witness :
    Calibration.radiance ≠ Calibration.counts ∧
    str_upper "foo" ≠ "GSICS" ∧ str_upper "foo" ≠ "NOMINAL" ∧
    calibrate hdr0 "foo" id id Calibration.radiance "VIS006" [some 1] =
      Except.error "Unknown Calibration mode : Please check" :=
  ⟨by decide, by decide, by decide,
    unknown_calib_mode_error hdr0 "foo" id id Calibration.radiance "VIS006"
      [some 1] (by decide) (by decide) (by decide)⟩

end SeviriNative
